import Mathlib

/-!
Verification of the OGTT-DM Risk Stratifier core logic (src/src/app/page.tsx).

The computation pipeline is embedded shallowly:
- JavaScript numbers are modelled as rationals (every value reachable from the
  clamped inputs is finite and all arithmetic used by the rule logic is exact
  in the rationals);
- a possibly-missing value (undefined) is an Option;
- raw text input to the normalizer is modelled by the constructor cases that
  are relevant to Number(): a finite numeric parse, the empty string (which
  Number maps to 0), non-numeric text (NaN) and a non-finite parse.
Display-only helpers (fmt, pctFmt) are not modelled.  The Matsuda and
disposition indices involve a real square root; they feed no rule evaluated
below and are omitted from the embedded index record.
-/

namespace OgttRisk

/-- Sex as entered in the form; the empty selection is modelled by none. -/
inductive Sex
  | male
  | female
deriving DecidableEq

/-- Ethnicity options of the form; the empty selection is modelled by none. -/
inductive Ethnicity
  | africanAmerican
  | hispanicLatino
  | nativeAmerican
  | asianAmerican
  | white
  | other
deriving DecidableEq

/-- Raw scalar input cases relevant to the normalizer. -/
inductive RawInput
  | num (q : ℚ)
  | empty
  | nonNumeric
  | nonFinite

/-- JavaScript Number() on a raw input: some q when the result is a finite
number q (the empty string parses to 0), none when the result is NaN or
infinite. -/
def jsNumber : RawInput → Option ℚ
  | RawInput.num q => some q
  | RawInput.empty => some 0
  | RawInput.nonNumeric => none
  | RawInput.nonFinite => none

/-- clampNum from the source: parse with Number, reject non-finite results,
otherwise clamp via Math.min(hi, Math.max(lo, n)). -/
def clampNum (v : RawInput) (lo hi : ℚ) : Option ℚ :=
  match jsNumber v with
  | none => none
  | some n => some (min hi (max lo n))

/-- The normalized input state: every field after its clampNum call,
together with the enum selections and boolean toggles. -/
structure Inputs where
  nAge : Option ℚ := none
  sex : Option Sex := none
  ethnicity : Option Ethnicity := none
  nWeight : Option ℚ := none
  nHeight : Option ℚ := none
  nWaist : Option ℚ := none
  nSBP : Option ℚ := none
  nDBP : Option ℚ := none
  onBPtx : Bool := false
  nTG : Option ℚ := none
  nHDL : Option ℚ := none
  nA1c : Option ℚ := none
  hxGDM : Bool := false
  hxPancreatitis : Bool := false
  hasMASLD : Bool := false
  hasPCOS : Bool := false
  fhxT2D : Bool := false
  ng0 : Option ℚ := none
  ng30 : Option ℚ := none
  ng60 : Option ℚ := none
  ng90 : Option ℚ := none
  ng120 : Option ℚ := none
  ni0 : Option ℚ := none
  ni30 : Option ℚ := none
  ni60 : Option ℚ := none
  ni90 : Option ℚ := none
  ni120 : Option ℚ := none

/-- BMI from weight (kg) and height (cm), undefined when either is missing or
the height in meters is zero. -/
def bmi (i : Inputs) : Option ℚ :=
  match i.nWeight, i.nHeight with
  | some w, some h =>
    let m := h / 100
    if m = 0 then none else some (w / (m * m))
  | _, _ => none

/-- IFG: fasting plasma glucose 100 to 125 mg/dL. -/
def isIFG (g0 : Option ℚ) : Bool :=
  match g0 with
  | some g => decide (100 ≤ g ∧ g < 126)
  | none => false

/-- IGT: 2-hour plasma glucose 140 to 199 mg/dL. -/
def isIGT (g120 : Option ℚ) : Bool :=
  match g120 with
  | some g => decide (140 ≤ g ∧ g < 200)
  | none => false

/-- mean from the source: arithmetic mean of the present values, undefined
when none is present. -/
def mean (vals : List (Option ℚ)) : Option ℚ :=
  let v := vals.filterMap id
  if v.length = 0 then none
  else some (v.foldl (fun a b => a + b) 0 / (v.length : ℚ))

/-- safeDiv from the source: division that rejects missing operands and a
zero denominator (the finiteness checks are vacuous in the rationals). -/
def safeDiv : Option ℚ → Option ℚ → Option ℚ
  | some a, some b => if b = 0 then none else some (a / b)
  | _, _ => none

/-- The embedded index record (Supplementary Tables 1 and 2). -/
structure Indices where
  gMean : Option ℚ
  iMean : Option ℚ
  homaIR : Option ℚ
  homaIRCutoff : ℚ
  igi : Option ℚ
  stumvoll1 : Option ℚ
  stumvoll2 : Option ℚ
  homaBeta : Option ℚ
  pgAucWeighted : Option ℚ

/-- The index calculator from the source, field by field. -/
def indices (i : Inputs) : Indices :=
  let gMean := mean [i.ng0, i.ng30, i.ng60, i.ng90, i.ng120]
  let iMean := mean [i.ni0, i.ni30, i.ni60, i.ni90, i.ni120]
  let homaIR :=
    match i.ng0, i.ni0 with
    | some g, some n => safeDiv (some (g * n)) (some 405)
    | _, _ => none
  let homaIRCutoff : ℚ :=
    if i.hasMASLD then 2
    else match bmi i with
      | some b => if b > 27.5 then 3.6 else 4.65
      | none => 4.65
  let igi :=
    match i.ni30, i.ni0, i.ng30, i.ng0 with
    | some i30, some i0, some g30, some g0 =>
      let denom := g30 - g0
      if denom = 0 then none else some ((i30 - i0) / denom)
    | _, _, _, _ => none
  let i0pmol := match i.ni0 with | some n => some (n * 6) | none => none
  let i30pmol := match i.ni30 with | some n => some (n * 6) | none => none
  let g30mmol := match i.ng30 with | some g => some (g / 18) | none => none
  let stumvoll1 :=
    match i30pmol, g30mmol, i0pmol with
    | some i30p, some g30m, some i0p =>
      some (1283 + 1.829 * i30p - 138.7 * g30m + 3.772 * i0p)
    | _, _, _ => none
  let stumvoll2 :=
    match i30pmol, g30mmol, i0pmol with
    | some i30p, some g30m, some i0p =>
      some (287 + 0.4164 * i30p - 26.07 * g30m + 0.9226 * i0p)
    | _, _, _ => none
  let homaBeta :=
    match i.ni0, i.ng0 with
    | some i0, some g0 =>
      let denom := g0 - 63
      if denom = 0 then none else some ((i0 * 360) / denom)
    | _, _ => none
  let pgAucWeighted :=
    match i.ng0, i.ng30, i.ng60, i.ng120 with
    | some a, some b, some c, some d => some ((a + 2 * b + 3 * c + 2 * d) / 4)
    | _, _, _, _ => none
  { gMean := gMean, iMean := iMean, homaIR := homaIR,
    homaIRCutoff := homaIRCutoff, igi := igi,
    stumvoll1 := stumvoll1, stumvoll2 := stumvoll2,
    homaBeta := homaBeta, pgAucWeighted := pgAucWeighted }

/-- Result of Step 1 (OGTT indication). -/
structure OgttResult where
  indicated : Bool
  reasons : List String

/-- The ethnicity high-risk set used by Step 1. -/
def highRiskEthnicity (i : Inputs) : Bool :=
  match i.ethnicity with
  | some e =>
    decide (e ∈ [Ethnicity.africanAmerican, Ethnicity.hispanicLatino,
      Ethnicity.nativeAmerican, Ethnicity.asianAmerican])
  | none => false

/-- isAsian from the source, selecting the BMI threshold. -/
def isAsian (i : Inputs) : Bool :=
  decide (i.ethnicity = some Ethnicity.asianAmerican)

/-- The hypertension risk factor of Step 1 exactly as written in the source:
both measured pressures must be present for the numeric comparison, and
treatment alone also qualifies. -/
def hypertensionRF (i : Inputs) : Bool :=
  (match i.nSBP, i.nDBP with
   | some s, some d => decide (s ≥ 130) || decide (d ≥ 80)
   | _, _ => false) || i.onBPtx

/-- The dyslipidemia risk factor of Step 1. -/
def dyslipidemiaRF (i : Inputs) : Bool :=
  (match i.nHDL with | some h => decide (h < 35) | none => false)
    || (match i.nTG with | some t => decide (t > 250) | none => false)

/-- The six risk factors of the BMI rule, in source order, with their labels. -/
def riskFactorList (i : Inputs) : List (Bool × String) :=
  [ (i.hasMASLD, "MASLD"),
    (hypertensionRF i, "Hypertension (≥130/80 or on treatment)"),
    (dyslipidemiaRF i, "Dyslipidemia (HDL <35 or TG >250)"),
    (i.hasPCOS, "PCOS"),
    (i.fhxT2D, "First-degree relative with T2D"),
    (highRiskEthnicity i, "High-risk ethnicity") ]

/-- Step 1: OGTT indication with the literal reason list. -/
def ogttIndication (i : Inputs) : OgttResult :=
  let reasons : List String :=
    (if (match i.ng0 with | some g => decide (100 ≤ g ∧ g < 126) | none => false)
      then ["FPG 100–125 mg/dL"] else [])
    ++ (if (match i.nA1c with | some a => decide (5.7 ≤ a ∧ a ≤ 6.4) | none => false)
      then ["HbA1c 5.7–6.4%"] else [])
    ++ (if i.hxGDM then ["History of gestational diabetes"] else [])
    ++ (if i.hxPancreatitis then ["History of pancreatitis"] else [])
    ++ (let bmiThreshold : ℚ := if isAsian i then 23 else 25
        let meetsBMI := match bmi i with
          | some b => decide (b ≥ bmiThreshold)
          | none => false
        let rfMet := (riskFactorList i).filter (fun p => p.1)
        if meetsBMI && decide (1 ≤ rfMet.length) then
          ["BMI ≥" ++ toString bmiThreshold ++ " kg/m² plus risk factor(s): "
            ++ String.intercalate ", " (rfMet.map (fun p => p.2))]
        else [])
  { indicated := decide (0 < reasons.length), reasons := reasons }

/-- One ATP-III criterion row of Step 2. -/
structure Criterion where
  name : String
  met : Bool
  detail : Option String

/-- Result of Step 2 (metabolic syndrome). -/
structure MetSResult where
  present : Bool
  metCount : Nat
  criteria : List Criterion

/-- Step 2: the five ATP-III criteria in source order and the presence
threshold of three met criteria. -/
def metabolicSyndrome (i : Inputs) : MetSResult :=
  let waistC : Criterion :=
    match i.sex, i.nWaist with
    | some s, some w =>
      { name := "Waist circumference",
        met := (match s with
          | Sex.male => decide (w > 102)
          | Sex.female => decide (w > 88)),
        detail := some (match s with
          | Sex.male => ">102 cm"
          | Sex.female => ">88 cm") }
    | _, _ => { name := "Waist circumference", met := false, detail := some "Enter sex + waist" }
  let tgC : Criterion :=
    match i.nTG with
    | some t => { name := "Triglycerides", met := decide (t ≥ 150), detail := some "≥150 mg/dL" }
    | none => { name := "Triglycerides", met := false, detail := some "Enter TG" }
  let hdlC : Criterion :=
    match i.sex, i.nHDL with
    | some s, some h =>
      { name := "HDL",
        met := (match s with
          | Sex.male => decide (h < 40)
          | Sex.female => decide (h < 50)),
        detail := some (match s with
          | Sex.male => "<40 mg/dL"
          | Sex.female => "<50 mg/dL") }
    | _, _ => { name := "HDL", met := false, detail := some "Enter sex + HDL" }
  let bpC : Criterion :=
    if i.onBPtx then { name := "Blood pressure", met := true, detail := some "On treatment" }
    else match i.nSBP, i.nDBP with
      | some s, some d =>
        { name := "Blood pressure", met := decide (s ≥ 130 ∨ d ≥ 85), detail := some "≥130/85" }
      | _, _ => { name := "Blood pressure", met := false, detail := some "Enter BP or treatment" }
  let fpgC : Criterion :=
    match i.ng0 with
    | some g => { name := "Fasting glucose", met := decide (g ≥ 100), detail := some "≥100 mg/dL" }
    | none => { name := "Fasting glucose", met := false, detail := some "Enter fasting glucose" }
  let criteria := [waistC, tgC, hdlC, bpC, fpgC]
  let metCount := criteria.foldl (fun acc c => acc + (if c.met then 1 else 0)) 0
  { present := decide (3 ≤ metCount), metCount := metCount, criteria := criteria }

/-- Severity of a Step 3 flag. -/
inductive Severity
  | danger
  | warn
  | neutral
deriving DecidableEq

/-- A Step 3 flag: label, severity and optional literal exact-risk string. -/
structure Flag where
  label : String
  severity : Severity
  exactRisk : Option String
deriving DecidableEq

/-- Result of Step 3 (risk stratification). -/
structure RiskResult where
  IFG : Bool
  IGT : Bool
  oneHourHigh : Bool
  a1cHigh : Bool
  igiLow : Bool
  firstPhaseLow : Bool
  metS : Bool
  flags : List Flag
  highRisk : Bool
  exactRisk : Option String

/-- The Step 3 rule blocks in source order as a function of the derived
booleans; each conditional push of the source appends its flag. -/
def riskFlags (ifg igt oneHrHigh a1c igiL fpl mets : Bool) : List Flag :=
  (if igt && oneHrHigh && mets then
    [{ label := "IGT + 1-hour PG >155 mg/dL + metabolic syndrome",
       severity := Severity.danger, exactRisk := some "52.8%" }] else [])
  ++ (if ifg && igt then
    [{ label := "Combined IFG and IGT",
       severity := Severity.danger, exactRisk := some ">50%" }] else [])
  ++ (if ifg && oneHrHigh && mets then
    [{ label := "IFG + 1-hour PG >155 mg/dL + metabolic syndrome",
       severity := Severity.danger, exactRisk := some "37.8%" }] else [])
  ++ (if (igt || ifg) && oneHrHigh && a1c then
    [{ label := "IGT or IFG + 1-hour PG >155 mg/dL + HbA1c 6.0–6.4%",
       severity := Severity.danger, exactRisk := none }] else [])
  ++ (if (igt || ifg) && oneHrHigh && (igiL || fpl) then
    [{ label := "IGT or IFG + 1-hour PG >155 mg/dL + IGI ≤0.82 and/or 1st-phase insulin secretion ≤1007 pmol/L",
       severity := Severity.danger, exactRisk := none }] else [])
  ++ (if ifg then
    [{ label := "IFG present (FPG 100–125 mg/dL)",
       severity := Severity.warn, exactRisk := none }] else [])
  ++ (if igt then
    [{ label := "IGT present (2-hour PG 140–199 mg/dL)",
       severity := Severity.warn, exactRisk := none }] else [])
  ++ (if oneHrHigh then
    [{ label := "1-hour PG >155 mg/dL",
       severity := Severity.warn, exactRisk := none }] else [])
  ++ (if mets then
    [{ label := "Metabolic syndrome present (ATP III)",
       severity := Severity.warn, exactRisk := none }] else [])

/-- The 1-hour glucose marker of Step 3. -/
def oneHourHigh (g60 : Option ℚ) : Bool :=
  match g60 with
  | some g => decide (g > 155)
  | none => false

/-- The HbA1c 6.0 to 6.4 marker of Step 3. -/
def a1cHigh (a : Option ℚ) : Bool :=
  match a with
  | some x => decide (6.0 ≤ x ∧ x ≤ 6.4)
  | none => false

/-- The low insulinogenic index marker of Step 3. -/
def igiLow (v : Option ℚ) : Bool :=
  match v with
  | some x => decide (x ≤ 0.82)
  | none => false

/-- The low first-phase secretion marker of Step 3. -/
def firstPhaseLow (v : Option ℚ) : Bool :=
  match v with
  | some x => decide (x ≤ 1007)
  | none => false

/-- Step 3: flags from the rule table, the overall high-risk boolean and the
first exact-risk annotation found in the flag list. -/
def risk (i : Inputs) : RiskResult :=
  let flags := riskFlags (isIFG i.ng0) (isIGT i.ng120) (oneHourHigh i.ng60)
    (a1cHigh i.nA1c) (igiLow (indices i).igi) (firstPhaseLow (indices i).stumvoll1)
    (metabolicSyndrome i).present
  { IFG := isIFG i.ng0, IGT := isIGT i.ng120,
    oneHourHigh := oneHourHigh i.ng60, a1cHigh := a1cHigh i.nA1c,
    igiLow := igiLow (indices i).igi,
    firstPhaseLow := firstPhaseLow (indices i).stumvoll1,
    metS := (metabolicSyndrome i).present,
    flags := flags,
    highRisk := flags.any (fun fl => decide (fl.severity = Severity.danger)),
    exactRisk := (flags.find? (fun fl => fl.exactRisk.isSome)).bind Flag.exactRisk }

/-- The 5 to 10 percent weight-loss target of Step 4, in kg. -/
structure WeightLoss where
  lowKg : ℚ
  highKg : ℚ
deriving DecidableEq

/-- Result of Step 4 (age-based eligibility). -/
structure Step4Result where
  applies : Bool
  decision : String
  weightLoss : Option WeightLoss

/-- Step 4 from the source, a function of the Step 3 high-risk boolean and
the normalized age and weight. -/
def step4 (highRisk : Bool) (nAge nWeight : Option ℚ) : Step4Result :=
  if !highRisk then
    { applies := false,
      decision := "Not in high-risk group based on Step 3 criteria.",
      weightLoss := none }
  else
    match nAge with
    | none =>
      { applies := true,
        decision := "High-risk group: enter age to determine eligibility recommendation.",
        weightLoss := none }
    | some a =>
      let decision :=
        if a < 40 then "Age <40 years: Not a candidate (high risk)."
        else if 40 ≤ a ∧ a ≤ 49 then
          "Age 40–49 years: Consider only if able to reverse high-risk prognostic markers with weight loss on repeat OGTT."
        else "Age ≥50 years: Can be accepted after risk mitigation with 5–10% weight loss."
      let wl : Option WeightLoss :=
        match nWeight with
        | none => none
        | some w => some { lowKg := w * 0.05, highKg := w * 0.10 }
      { applies := true, decision := decision, weightLoss := wl }

/-- The baseline snapshot captured on explicit user action. -/
structure Baseline where
  timestamp : String := ""
  weightKg : Option ℚ := none
  bmi : Option ℚ := none
  metsPresent : Bool := false
  highRisk : Bool := false
  exactRisk : Option String := none
  flags : List String := []
  matsuda : Option ℚ := none
  homaIR : Option ℚ := none
  igi : Option ℚ := none
  stumvoll1 : Option ℚ := none
  pgAuc : Option ℚ := none

/-- The rendered flag label used as the comparison key: the label plus the
bracketed exact-risk suffix when one is present. -/
def flagKey (f : Flag) : String :=
  match f.exactRisk with
  | some er => f.label ++ " [" ++ er ++ "]"
  | none => f.label

/-- Helper for modelling a JavaScript Set built from a list: keep the first
occurrence of each element, in insertion order. -/
def dedupFirstGo : List String → List String → List String
  | _, [] => []
  | seen, x :: xs =>
    if seen.contains x then dedupFirstGo seen xs
    else x :: dedupFirstGo (x :: seen) xs

/-- Iteration order of a JavaScript Set built from a list. -/
def dedupFirst (l : List String) : List String := dedupFirstGo [] l

/-- Output of the baseline comparator. -/
structure Comparison where
  wlPct : Option ℚ
  reversedHighRisk : Bool
  newHighRisk : Bool
  added : List String
  removed : List String

/-- The baseline comparator from the source: null without a baseline,
otherwise weight-change percent, the two high-risk transition booleans and
the added and removed flag-label sets. -/
def comparison (baseline : Option Baseline) (nWeight : Option ℚ) (r : RiskResult) :
    Option Comparison :=
  match baseline with
  | none => none
  | some b =>
    let wlPct :=
      match b.weightKg, nWeight with
      | some bw, some cw => if 0 < bw then some ((bw - cw) / bw * 100) else none
      | _, _ => none
    let baseFlags := b.flags
    let nowFlags := r.flags.map flagKey
    let added := (dedupFirst nowFlags).filter (fun x => ! baseFlags.contains x)
    let removed := (dedupFirst baseFlags).filter (fun x => ! nowFlags.contains x)
    some { wlPct := wlPct,
           reversedHighRisk := b.highRisk && !r.highRisk,
           newHighRisk := !b.highRisk && r.highRisk,
           added := added, removed := removed }

/-- A blank input state: every field untouched. -/
def blankInputs : Inputs := { }

/-! ### Claim theorems -/

/-- C3: clampNum returns the parsed value clamped into the closed range when
the raw input parses to a finite number, and the clamped value lies in the
range; it returns absent when the parse is NaN or non-finite, and in
particular non-numeric text always yields absent. -/
theorem clampNum_contract (v : RawInput) (lo hi : ℚ) (h : lo ≤ hi) :
    (∀ n, jsNumber v = some n →
        clampNum v lo hi = some (min hi (max lo n))
          ∧ lo ≤ min hi (max lo n) ∧ min hi (max lo n) ≤ hi)
    ∧ (jsNumber v = none → clampNum v lo hi = none)
    ∧ clampNum RawInput.nonNumeric lo hi = none := by
  refine ⟨?_, ?_, rfl⟩
  · intro n hn
    refine ⟨?_, le_min h (le_max_left lo n), min_le_left hi _⟩
    unfold clampNum
    rw [hn]
  · intro hn
    unfold clampNum
    rw [hn]

/-- Witness for C3 at the glucose clamp range: an overflowing parse is clamped
to the upper bound and non-numeric text is rejected. -/
theorem clampNum_contract_witness :
    clampNum (RawInput.num 700) 40 600 = some 600
      ∧ clampNum RawInput.nonNumeric 40 600 = none := by
  have h := clampNum_contract (RawInput.num 700) 40 600 (by norm_num)
  refine ⟨?_, h.2.2⟩
  have h1 := (h.1 700 rfl).1
  rw [h1]
  norm_num [min_def, max_def]

/-- C4: on the empty string (the initial state of every field) clampNum does
not return absent but the range minimum, because Number of the empty string
is 0, which is finite and is clamped up to the lower bound of any range with
a nonnegative minimum. -/
theorem clampNum_empty_string (lo hi : ℚ) (h0 : 0 ≤ lo) (h1 : lo ≤ hi) :
    clampNum RawInput.empty lo hi = some lo := by
  show some (min hi (max lo 0)) = some lo
  rw [max_eq_left h0, min_eq_right h1]

/-- Witness for C4 at the age clamp range: a blank age field normalizes to
the lower bound 10 rather than to absent. -/
theorem clampNum_empty_string_witness :
    clampNum RawInput.empty 10 100 = some 10 :=
  clampNum_empty_string 10 100 (by norm_num) (by norm_num)

/-- The Step 3 flag list contains a danger flag exactly when one of the five
danger rule conditions holds, checked over all valuations of the derived
booleans. -/
theorem riskFlags_any_danger : ∀ ifg igt oneHr a1c igiL fpl mets : Bool,
    (riskFlags ifg igt oneHr a1c igiL fpl mets).any
        (fun fl => decide (fl.severity = Severity.danger)) =
      ((igt && oneHr && mets) || (ifg && igt) || (ifg && oneHr && mets)
        || ((igt || ifg) && oneHr && a1c)
        || ((igt || ifg) && oneHr && (igiL || fpl))) := by
  decide

/-- The first flag of the Step 3 list carrying an exact-risk string follows
the fixed table order of the three danger rules with percentages, checked
over all valuations of the derived booleans. -/
theorem riskFlags_find_exact : ∀ ifg igt oneHr a1c igiL fpl mets : Bool,
    ((riskFlags ifg igt oneHr a1c igiL fpl mets).find?
        (fun fl => fl.exactRisk.isSome)).bind Flag.exactRisk =
      (if (igt && oneHr && mets) = true then some "52.8%"
       else if (ifg && igt) = true then some ">50%"
       else if (ifg && oneHr && mets) = true then some "37.8%"
       else none) := by
  decide

/-- C1: the Step 3 high-risk boolean is true exactly when some flag in the
produced flag list has severity danger; warn flags alone never set it. -/
theorem risk_highRisk_iff (i : Inputs) :
    (risk i).highRisk = true ↔ ∃ fl ∈ (risk i).flags, fl.severity = Severity.danger := by
  have h : (risk i).highRisk =
      (risk i).flags.any (fun fl => decide (fl.severity = Severity.danger)) := rfl
  rw [h, List.any_eq_true]
  simp

/-- C2: the Step 3 exact-risk output is the exact-risk value of the first
matching danger rule in fixed table order (the 52.8 percent row, then the
IFG and IGT row, then the 37.8 percent row), and is absent when no matching
rule carries an exact-risk value. -/
theorem risk_exactRisk_first (i : Inputs) :
    (risk i).exactRisk =
      (if ((risk i).IGT && (risk i).oneHourHigh && (risk i).metS) = true then some "52.8%"
       else if ((risk i).IFG && (risk i).IGT) = true then some ">50%"
       else if ((risk i).IFG && (risk i).oneHourHigh && (risk i).metS) = true then some "37.8%"
       else none) :=
  riskFlags_find_exact (isIFG i.ng0) (isIGT i.ng120) (oneHourHigh i.ng60)
    (a1cHigh i.nA1c) (igiLow (indices i).igi) (firstPhaseLow (indices i).stumvoll1)
    (metabolicSyndrome i).present

/-- Inputs firing both the 52.8 percent rule and the IFG and IGT rule: IFG,
IGT, a high 1-hour glucose, and three met ATP-III criteria. -/
def bothRulesInputs : Inputs :=
  { ng0 := some 110, ng60 := some 160, ng120 := some 150,
    nTG := some 200, onBPtx := true }

/-- Witness for C2: on inputs firing both the 52.8 percent rule and the
IFG and IGT rule, the reported exact risk is 52.8 percent. -/
theorem risk_exactRisk_first_witness :
    (risk bothRulesInputs).IFG = true
      ∧ (risk bothRulesInputs).IGT = true
      ∧ (risk bothRulesInputs).oneHourHigh = true
      ∧ (risk bothRulesInputs).metS = true
      ∧ (risk bothRulesInputs).exactRisk = some "52.8%" := by
  refine ⟨by decide, by decide, by decide, by decide, ?_⟩
  rw [risk_exactRisk_first]
  decide

/-- C5: Step 2 evaluates exactly five ATP-III criteria; a criterion with
missing required inputs counts as not met; treatment alone satisfies the
blood-pressure criterion; and presence holds exactly when at least three
criteria are met. -/
theorem metabolicSyndrome_spec (i : Inputs) :
    (metabolicSyndrome i).criteria.length = 5
    ∧ ((metabolicSyndrome i).present = true ↔ 3 ≤ (metabolicSyndrome i).metCount)
    ∧ (i.onBPtx = true →
        ((metabolicSyndrome i).criteria.get? 3).map Criterion.met = some true)
    ∧ ((i.sex = none ∨ i.nWaist = none) →
        ((metabolicSyndrome i).criteria.get? 0).map Criterion.met = some false)
    ∧ (i.nTG = none →
        ((metabolicSyndrome i).criteria.get? 1).map Criterion.met = some false)
    ∧ ((i.sex = none ∨ i.nHDL = none) →
        ((metabolicSyndrome i).criteria.get? 2).map Criterion.met = some false)
    ∧ (i.onBPtx = false → (i.nSBP = none ∨ i.nDBP = none) →
        ((metabolicSyndrome i).criteria.get? 3).map Criterion.met = some false)
    ∧ (i.ng0 = none →
        ((metabolicSyndrome i).criteria.get? 4).map Criterion.met = some false) := by
  refine ⟨rfl, decide_eq_true_iff, ?_, ?_, ?_, ?_, ?_, ?_⟩
  · intro h
    simp [metabolicSyndrome, h]
  · intro h
    rcases h with h | h
    · simp [metabolicSyndrome, h]
    · cases hs : i.sex <;> simp [metabolicSyndrome, h, hs]
  · intro h
    simp [metabolicSyndrome, h]
  · intro h
    rcases h with h | h
    · simp [metabolicSyndrome, h]
    · cases hs : i.sex <;> simp [metabolicSyndrome, h, hs]
  · intro h hbp
    rcases hbp with hbp | hbp
    · simp [metabolicSyndrome, h, hbp]
    · cases hs : i.nSBP <;> simp [metabolicSyndrome, h, hbp, hs]
  · intro h
    simp [metabolicSyndrome, h]

/-- Witness for C5: with treatment alone the blood-pressure criterion is met
while every data-missing criterion is not, and on blank inputs the
blood-pressure criterion is not met and the syndrome is absent. -/
theorem metabolicSyndrome_spec_witness :
    (((metabolicSyndrome { onBPtx := true }).criteria.get? 3).map Criterion.met = some true)
    ∧ (((metabolicSyndrome { onBPtx := true }).criteria.get? 0).map Criterion.met = some false)
    ∧ (((metabolicSyndrome blankInputs).criteria.get? 3).map Criterion.met = some false)
    ∧ ((metabolicSyndrome blankInputs).present = false) := by
  refine ⟨(metabolicSyndrome_spec { onBPtx := true }).2.2.1 rfl,
    (metabolicSyndrome_spec { onBPtx := true }).2.2.2.1 (Or.inl rfl),
    (metabolicSyndrome_spec blankInputs).2.2.2.2.2.2.1 rfl (Or.inl rfl),
    by decide⟩

/-- Inputs with a present systolic pressure of 140, an absent diastolic
pressure, no treatment, and a BMI of exactly 25 with no other trigger. -/
def sbpOnlyInputs : Inputs :=
  { nWeight := some 100, nHeight := some 200, nSBP := some 140 }

/-- Counterexample to C6 as stated: with systolic 140 present, diastolic
absent and no treatment, the hypertension risk factor of Step 1 is false, and
despite a BMI meeting the threshold the OGTT indication is negative. -/
theorem hypertensionRF_cex :
    sbpOnlyInputs.nSBP = some 140
      ∧ sbpOnlyInputs.nDBP = none
      ∧ sbpOnlyInputs.onBPtx = false
      ∧ bmi sbpOnlyInputs = some 25
      ∧ hypertensionRF sbpOnlyInputs = false
      ∧ (ogttIndication sbpOnlyInputs).indicated = false := by
  refine ⟨rfl, rfl, rfl, ?_, rfl, ?_⟩
  · norm_num [bmi, sbpOnlyInputs]
  · norm_num [ogttIndication, sbpOnlyInputs, riskFactorList, hypertensionRF,
      dyslipidemiaRF, highRiskEthnicity, isAsian, bmi]

/-- C6 amended: the hypertension risk factor of Step 1 holds exactly when the
patient is on antihypertensive treatment, or both measured pressures are
present and systolic is at least 130 or diastolic is at least 80; a present
systolic at or above 130 with an absent diastolic does not satisfy it. -/
theorem hypertensionRF_iff (i : Inputs) :
    hypertensionRF i = true ↔
      (i.onBPtx = true
        ∨ ∃ s d : ℚ, i.nSBP = some s ∧ i.nDBP = some d ∧ (130 ≤ s ∨ 80 ≤ d)) := by
  unfold hypertensionRF
  cases hs : i.nSBP <;> cases hd : i.nDBP <;>
    (simp [hs, hd]; try tauto)

/-- Witness for C6 amended: treatment alone satisfies the risk factor. -/
theorem hypertensionRF_iff_witness :
    hypertensionRF { onBPtx := true } = true :=
  (hypertensionRF_iff { onBPtx := true }).mpr (Or.inl rfl)

/-- The weighted glucose area-under-curve field of the index record, as a
match on the four timepoints it reads. -/
theorem indices_pgAuc_eq (i : Inputs) :
    (indices i).pgAucWeighted =
      (match i.ng0, i.ng30, i.ng60, i.ng120 with
       | some a, some b, some c, some d => some ((a + 2 * b + 3 * c + 2 * d) / 4)
       | _, _, _, _ => none) := rfl

/-- C7: the weighted glucose area-under-curve equals
(G0 + 2 G30 + 3 G60 + 2 G120) / 4 when the four timepoints are present, is
absent when any of them is absent, and never reads the 90-minute glucose:
two inputs agreeing on the four timepoints give the same value regardless of
their 90-minute values. -/
theorem pgAuc_weighted_spec (i j : Inputs) :
    (∀ a b c d : ℚ, i.ng0 = some a → i.ng30 = some b → i.ng60 = some c →
        i.ng120 = some d →
        (indices i).pgAucWeighted = some ((a + 2 * b + 3 * c + 2 * d) / 4))
    ∧ ((i.ng0 = none ∨ i.ng30 = none ∨ i.ng60 = none ∨ i.ng120 = none) →
        (indices i).pgAucWeighted = none)
    ∧ (i.ng0 = j.ng0 → i.ng30 = j.ng30 → i.ng60 = j.ng60 → i.ng120 = j.ng120 →
        (indices i).pgAucWeighted = (indices j).pgAucWeighted) := by
  refine ⟨?_, ?_, ?_⟩
  · intro a b c d h0 h30 h60 h120
    rw [indices_pgAuc_eq, h0, h30, h60, h120]
  · intro h
    rw [indices_pgAuc_eq]
    cases hg0 : i.ng0 <;> cases hg30 : i.ng30 <;> cases hg60 : i.ng60 <;>
      cases hg120 : i.ng120 <;> simp_all
  · intro h0 h30 h60 h120
    rw [indices_pgAuc_eq, indices_pgAuc_eq, h0, h30, h60, h120]

/-- The spec example series with a present 90-minute glucose of 999. -/
def aucSeries : Inputs :=
  { ng0 := some 90, ng30 := some 150, ng60 := some 180,
    ng90 := some 999, ng120 := some 130 }

/-- The spec example series with the 90-minute glucose absent. -/
def aucSeriesNo90 : Inputs :=
  { ng0 := some 90, ng30 := some 150, ng60 := some 180, ng120 := some 130 }

/-- Witness for C7: the spec example gives 297.5 and altering the 90-minute
value to absent leaves the area unchanged. -/
theorem pgAuc_weighted_spec_witness :
    (indices aucSeries).pgAucWeighted = some (595 / 2)
      ∧ (indices aucSeriesNo90).pgAucWeighted = (indices aucSeries).pgAucWeighted := by
  constructor
  · have h := (pgAuc_weighted_spec aucSeries aucSeries).1 90 150 180 130 rfl rfl rfl rfl
    rw [h]
    norm_num
  · exact (pgAuc_weighted_spec aucSeriesNo90 aucSeries).2.2 rfl rfl rfl rfl

/-- Inputs reaching Step 3 high risk through combined IFG and IGT, with a
known weight of 80 kg and an unknown age. -/
def highRiskNoAge : Inputs :=
  { nWeight := some 80, ng0 := some 110, ng120 := some 150 }

/-- Counterexample to C8 as stated: on high-risk inputs with weight 80 kg
present but age unknown, Step 4 reports no weight-loss target. -/
theorem step4_age_unknown_cex :
    (risk highRiskNoAge).highRisk = true
      ∧ highRiskNoAge.nWeight = some 80
      ∧ highRiskNoAge.nAge = none
      ∧ (step4 (risk highRiskNoAge).highRisk highRiskNoAge.nAge
          highRiskNoAge.nWeight).weightLoss = none := by
  refine ⟨by decide, rfl, rfl, ?_⟩
  have h : (risk highRiskNoAge).highRisk = true := by decide
  rw [h]
  rfl

/-- C8 amended: whenever Step 3 high risk is true and the age is known, the
Step 4 weight-loss target equals the pair of weight times 0.05 and weight
times 0.10, for every age band reached; it is absent whenever the weight is
absent, Step 3 high risk is false, or the age is unknown. -/
theorem step4_weightLoss_eq (hr : Bool) (a w : Option ℚ) :
    (step4 hr a w).weightLoss =
      (if hr then
        (match a, w with
         | some _, some wt => some { lowKg := wt * 0.05, highKg := wt * 0.10 }
         | _, _ => none)
       else none) := by
  cases hr <;> cases a <;> cases w <;> simp [step4]

/-- C9: with a baseline present, the comparator reports reversed high risk
exactly when the baseline was high risk and the current state is not, new
high risk exactly in the opposite transition, and the weight-change percent
(baseline minus current over baseline, times 100) whenever both weights are
present and the baseline weight is positive; the percent is absent when the
baseline weight is zero or either weight is absent. -/
theorem comparison_spec (b : Baseline) (w : Option ℚ) (r : RiskResult) :
    (comparison (some b) w r).map Comparison.reversedHighRisk
        = some (b.highRisk && !r.highRisk)
    ∧ (comparison (some b) w r).map Comparison.newHighRisk
        = some (!b.highRisk && r.highRisk)
    ∧ (∀ bw cw : ℚ, b.weightKg = some bw → w = some cw → 0 < bw →
        (comparison (some b) w r).map Comparison.wlPct
          = some (some ((bw - cw) / bw * 100)))
    ∧ (b.weightKg = some 0 →
        (comparison (some b) w r).map Comparison.wlPct = some none)
    ∧ ((b.weightKg = none ∨ w = none) →
        (comparison (some b) w r).map Comparison.wlPct = some none) := by
  have key : (comparison (some b) w r).map Comparison.wlPct =
      some (match b.weightKg, w with
        | some bw, some cw => if 0 < bw then some ((bw - cw) / bw * 100) else none
        | _, _ => none) := rfl
  refine ⟨rfl, rfl, ?_, ?_, ?_⟩
  · intro bw cw hbw hcw hpos
    rw [key, hbw, hcw]
    simp [hpos]
  · intro hbw
    rw [key, hbw]
    cases hw : w <;> simp
  · intro h
    rcases h with h | h
    · rw [key, h]
    · rw [key, h]
      cases hb : b.weightKg <;> simp

/-- The baseline of the spec example: weight 100 kg, high risk. -/
def exampleBaseline : Baseline := { weightKg := some 100, highRisk := true }

/-- Witness for C9 at the spec example: baseline weight 100 kg and current
weight 92 kg give 8 percent, and high risk reversing from true to false sets
exactly the reversed flag. -/
theorem comparison_spec_witness :
    (comparison (some exampleBaseline) (some 92) (risk blankInputs)).map Comparison.wlPct
        = some (some 8)
    ∧ (comparison (some exampleBaseline) (some 92) (risk blankInputs)).map
        Comparison.reversedHighRisk = some true
    ∧ (comparison (some exampleBaseline) (some 92) (risk blankInputs)).map
        Comparison.newHighRisk = some false := by
  have h := comparison_spec exampleBaseline (some 92) (risk blankInputs)
  refine ⟨?_, ?_, ?_⟩
  · have h3 := h.2.2.1 100 92 rfl rfl (by norm_num)
    rw [h3]
    norm_num
  · rw [h.1]
    decide
  · rw [h.2.1]
    decide

/-- The insulinogenic index field of the index record, as a match on its
four operands. -/
theorem indices_igi_eq (i : Inputs) :
    (indices i).igi =
      (match i.ni30, i.ni0, i.ng30, i.ng0 with
       | some i30, some i0, some g30, some g0 =>
         if g30 - g0 = 0 then none else some ((i30 - i0) / (g30 - g0))
       | _, _, _, _ => none) := rfl

/-- The HOMA-beta field of the index record, as a match on its operands. -/
theorem indices_homaBeta_eq (i : Inputs) :
    (indices i).homaBeta =
      (match i.ni0, i.ng0 with
       | some i0, some g0 =>
         if g0 - 63 = 0 then none else some ((i0 * 360) / (g0 - 63))
       | _, _ => none) := rfl

/-- C10: every data-dependent denominator is guarded: the insulinogenic
index is absent whenever the 30-minute glucose equals the fasting glucose,
regardless of insulin values, or any operand is absent; HOMA-beta is absent
whenever the fasting glucose is 63 or either operand is absent; and safeDiv
returns absent on a zero denominator or a missing operand, so no division by
exactly zero ever surfaces a value. -/
theorem indices_zero_denominator (i : Inputs) :
    (i.ng30 = i.ng0 → (indices i).igi = none)
    ∧ ((i.ni30 = none ∨ i.ni0 = none ∨ i.ng30 = none ∨ i.ng0 = none) →
        (indices i).igi = none)
    ∧ (i.ng0 = some 63 → (indices i).homaBeta = none)
    ∧ ((i.ni0 = none ∨ i.ng0 = none) → (indices i).homaBeta = none)
    ∧ (∀ a : Option ℚ, safeDiv a (some 0) = none ∧ safeDiv a none = none
        ∧ safeDiv none a = none) := by
  refine ⟨?_, ?_, ?_, ?_, ?_⟩
  · intro h
    rw [indices_igi_eq]
    cases hi30 : i.ni30 <;> cases hi0 : i.ni0 <;> cases hg30 : i.ng30 <;>
      cases hg0 : i.ng0 <;> simp_all
  · intro h
    rw [indices_igi_eq]
    cases hi30 : i.ni30 <;> cases hi0 : i.ni0 <;> cases hg30 : i.ng30 <;>
      cases hg0 : i.ng0 <;> simp_all
  · intro h
    rw [indices_homaBeta_eq, h]
    cases hi0 : i.ni0 <;> simp
  · intro h
    rw [indices_homaBeta_eq]
    cases hi0 : i.ni0 <;> cases hg0 : i.ng0 <;> simp_all
  · intro a
    refine ⟨?_, ?_, ?_⟩
    · cases a <;> simp [safeDiv]
    · cases a <;> simp [safeDiv]
    · simp [safeDiv]

/-- An OGTT series with identical fasting and 30-minute glucose, the fasting
glucose sitting exactly at 63 mg/dL, and present insulin values. -/
def flatSeries : Inputs :=
  { ng0 := some 63, ng30 := some 63, ni0 := some 10, ni30 := some 60 }

/-- Witness for C10: with glucose 63 at both 0 and 30 minutes and present
insulins, the insulinogenic index and HOMA-beta are both absent, and safeDiv
rejects a zero denominator. -/
theorem indices_zero_denominator_witness :
    (indices flatSeries).igi = none
      ∧ (indices flatSeries).homaBeta = none
      ∧ safeDiv (some 5) (some 0) = none := by
  have h := indices_zero_denominator flatSeries
  exact ⟨h.1 rfl, h.2.2.1 rfl, (h.2.2.2.2 (some 5)).1⟩

end OgttRisk
